import Mathlib

/-!
The orb command surface of circleci-cli, `cmd/orb.go`

A shallow embedding of `src/cmd/orb.go`.

* Go's `error` interface is `Option GoError` (`nil` is `none`).
* The registry client (`api` package), the logger and the reference parser
  (`references` package) are collaborators of the file: the registry is a
  record of stub functions carried by `orbOptions.apiOpts`, every call through
  it is recorded in the trace `World.calls`, every logged message in
  `World.log`.
* A Go run-time panic (index out of range, failed type assertion, the explicit
  `panic(err)`) is the result `none`.
* A Go `map` is the list of its entries in the order the `range` loop visits
  them; `len` of the map is the length of that list.
-/

/-- Go error values as `cmd/orb.go` builds and receives them. -/
inductive GoError where
  /-- Source `fmt.Errorf(...)` with the formatted message. -/
  | errorf (message : String)
  /-- Source `errors.Wrapf(cause, ...)` with the formatted context message. -/
  | wrapf (cause : GoError) (message : String)
  /-- An error value made outside `cmd/orb.go` (registry client, parser, encoder),
  by its kind and detail. -/
  | foreign (kind : String) (detail : String)
  deriving DecidableEq

namespace api

/-- The dynamic values an `interface{}` default can hold. -/
inductive Value where
  | string (s : String)
  | bool (b : Bool)
  /-- Any other dynamic type (number, list, mapping), by the name of the type. -/
  | other (dynamicType : String)
  deriving DecidableEq

/-- Source `api.OrbElementParameter`; `Default == nil` is `none`. -/
structure OrbElementParameter where
  Type_ : String
  Default : Option Value
  deriving DecidableEq

/-- Source `api.OrbElement`: a command, job or executor. -/
structure OrbElement where
  Parameters : List (String × OrbElementParameter)
  deriving DecidableEq

/-- One entry of `Orb.Versions`. -/
structure OrbVersion where
  Version : String
  CreatedAt : String
  deriving DecidableEq

/-- Source `api.OrbWithData`. -/
structure OrbWithData where
  Name : String
  HighestVersion : String
  CreatedAt : String
  Versions : List OrbVersion
  Commands : List (String × OrbElement)
  Jobs : List (String × OrbElement)
  Executors : List (String × OrbElement)
  deriving DecidableEq

/-- Source `api.OrbsForListing`. -/
structure OrbsForListing where
  Orbs : List OrbWithData
  deriving DecidableEq

/-- The `Orb` part of the answer of `api.OrbID`. -/
structure OrbIDOrb where
  ID : String
  deriving DecidableEq

/-- The answer of `api.OrbID`. -/
structure OrbIDResponse where
  Orb : OrbIDOrb
  deriving DecidableEq

/-- The answer of the version-changing calls: only `HighestVersion` is read. -/
structure Orb where
  HighestVersion : String
  deriving DecidableEq

/-- The answer of `api.OrbQuery`. -/
structure ConfigResponse where
  OutputYaml : String
  deriving DecidableEq

/-- The answer of `api.OrbInfo`. -/
structure OrbInfoResponse where
  Orb : OrbWithData
  deriving DecidableEq

/-- The registry as `cmd/orb.go` sees it: one stub per function of the `api`
package that the file calls, each answering with a value or an error. -/
structure Options where
  ListOrbs : Bool → Except GoError OrbsForListing
  ListNamespaceOrbs : String → Except GoError OrbsForListing
  OrbQuery : String → Except GoError ConfigResponse
  OrbID : String → String → Except GoError OrbIDResponse
  OrbPublishByID : String → String → String → Except GoError Orb
  OrbIncrementVersion : String → String → String → String → Except GoError Orb
  OrbPromote : String → String → String → String → Except GoError Orb
  CreateOrb : String → String → Except GoError Unit
  OrbSource : String → Except GoError String
  OrbInfo : String → Except GoError OrbInfoResponse

end api

/-- A call issued to the registry, with the arguments it carried. -/
inductive RemoteCall where
  | ListOrbs (uncertified : Bool)
  | ListNamespaceOrbs (ns : String)
  | OrbQuery (path : String)
  | OrbID (ns orb : String)
  | OrbPublishByID (path id version : String)
  | OrbIncrementVersion (path ns orb segment : String)
  | OrbPromote (ns orb version segment : String)
  | CreateOrb (ns orb : String)
  | OrbSource (ref : String)
  | OrbInfo (ref : String)
  deriving DecidableEq

/-- What a command leaves behind: the registry calls in the order they were
issued and the messages handed to the logger. -/
structure World where
  calls : List RemoteCall
  log : List String
  deriving DecidableEq

/-- The state before a command runs. -/
def World.start : World := ⟨[], []⟩

/-- A command: from the world before to the value and the world after, or
`none` when the Go code panics. -/
def Cmd (α : Type) : Type := World → Option (α × World)

namespace Cmd

/-- Return a value, world unchanged. -/
def ret {α : Type} (a : α) : Cmd α := fun w => some (a, w)

/-- Sequencing. -/
def andThen {α β : Type} (m : Cmd α) (f : α → Cmd β) : Cmd β := fun w =>
  match m w with
  | none => none
  | some (a, w') => f a w'

instance : Monad Cmd where
  pure := ret
  bind := andThen

/-- A run-time panic. -/
def panic {α : Type} : Cmd α := fun _ => none

/-- Issue a registry call: record it, hand back the registry's answer. -/
def remote {α : Type} (c : RemoteCall) (answer : Except GoError α) : Cmd (Except GoError α) :=
  fun w => some (answer, { w with calls := w.calls ++ [c] })

/-- Hand a message to the logger: `Log.Info` and `Log.Infof` after formatting. -/
def info (message : String) : Cmd Unit :=
  fun w => some ((), { w with log := w.log ++ [message] })

/-- The expression `args[i]`: panics when `i` is out of range. -/
def index : List String → Nat → Cmd String
  | [], _ => panic
  | a :: _, 0 => ret a
  | _ :: as, i + 1 => index as i

end Cmd

/-- The two reference parsers of the `references` package, which `cmd/orb.go`
imports. -/
structure ReferenceParser where
  SplitIntoOrbNamespaceAndVersion : String → Except GoError (String × String × String)
  SplitIntoOrbAndNamespace : String → Except GoError (String × String)

namespace references

/-- Split a list at the first occurrence of `c`. -/
def splitAtFirst (c : Char) : List Char → Option (List Char × List Char)
  | [] => none
  | x :: xs =>
    if x = c then some ([], xs)
    else match splitAtFirst c xs with
      | none => none
      | some (before, after) => some (x :: before, after)

/-- Modelled from the spec: `references.SplitIntoOrbAndNamespace`, whose source is
not part of `cmd/orb.go`. Spec 4.1, `splitNamespaceAndName`: splits on the first
`/`; fails with `InvalidReferenceFormat` if no `/` is present or either side is
empty. -/
def SplitIntoOrbAndNamespace (ref : String) : Except GoError (String × String) :=
  match splitAtFirst '/' ref.toList with
  | none => .error (.foreign "InvalidReferenceFormat" ref)
  | some (ns, orb) =>
    if ns = [] ∨ orb = [] then .error (.foreign "InvalidReferenceFormat" ref)
    else .ok (String.mk ns, String.mk orb)

/-- Modelled from the spec: `references.SplitIntoOrbNamespaceAndVersion`, whose
source is not part of `cmd/orb.go`. Spec 4.1, `splitNamespaceNameAndVersion`:
splits the name portion (`splitNamespaceAndName` on the part before `@`) and the
version (the part after `@`); fails with `InvalidReferenceFormat` if no `@` is
present or the version portion is empty. -/
def SplitIntoOrbNamespaceAndVersion (ref : String) :
    Except GoError (String × String × String) :=
  match splitAtFirst '@' ref.toList with
  | none => .error (.foreign "InvalidReferenceFormat" ref)
  | some (name, version) =>
    if version = [] then .error (.foreign "InvalidReferenceFormat" ref)
    else match SplitIntoOrbAndNamespace (String.mk name) with
      | .error _ => .error (.foreign "InvalidReferenceFormat" ref)
      | .ok (ns, orb) => .ok (ns, orb, String.mk version)

/-- Modelled from the spec: `references.IsDevVersion`, whose source is not part of
`cmd/orb.go`. Spec 4.1, `classifyVersion`: `Dev` iff the string starts with
`dev:`. -/
def IsDevVersion (version : String) : Bool :=
  "dev:".toList.isPrefixOf version.toList

/-- The parser of the spec. -/
def parser : ReferenceParser where
  SplitIntoOrbNamespaceAndVersion := SplitIntoOrbNamespaceAndVersion
  SplitIntoOrbAndNamespace := SplitIntoOrbAndNamespace

end references

namespace cmd

/-- Source `orbOptions`: the registry handle and the positional arguments. -/
structure orbOptions where
  apiOpts : api.Options
  args : List String

/-- Source `validSegments`, the map literal. -/
def validSegments : List (String × Bool) :=
  [("major", true), ("minor", true), ("patch", true)]

/-- Source `validateSegmentArg`: `nil` when `label` is a key of `validSegments`. -/
def validateSegmentArg (label : String) : Option GoError :=
  match validSegments.lookup label with
  | some _ => none
  | none =>
    some (.errorf ("expected `" ++ label ++ "` to be one of \"major\", \"minor\", or \"patch\""))

/-- Source `publishOrb`, lines 411-439. -/
def publishOrb (refs : ReferenceParser) (opts : orbOptions) : Cmd (Option GoError) := do
  let path ← Cmd.index opts.args 0
  let ref ← Cmd.index opts.args 1
  match refs.SplitIntoOrbNamespaceAndVersion ref with
  | .error err => return some err
  | .ok (ns, orb, version) =>
    match ← Cmd.remote (.OrbID ns orb) (opts.apiOpts.OrbID ns orb) with
    | .error err => return some err
    | .ok id =>
      match ← Cmd.remote (.OrbPublishByID path id.Orb.ID version)
          (opts.apiOpts.OrbPublishByID path id.Orb.ID version) with
      | .error err => return some err
      | .ok _ =>
        Cmd.info ("Orb `" ++ ref ++ "` was published.")
        Cmd.info "Please note that this is an open orb and is world-readable."
        if references.IsDevVersion version then
          Cmd.info ("Note that your dev label `" ++ version ++
            "` can be overwritten by anyone in your organization.")
          Cmd.info ("Your dev orb will expire in 90 days unless a new version is published on the label `"
            ++ version ++ "`.")
        return none

/-- Source `incrementOrb`, lines 453-475. -/
def incrementOrb (refs : ReferenceParser) (opts : orbOptions) : Cmd (Option GoError) := do
  let ref ← Cmd.index opts.args 1
  let segment ← Cmd.index opts.args 2
  match validateSegmentArg segment with
  | some err => return some err
  | none =>
    match refs.SplitIntoOrbAndNamespace ref with
    | .error err => return some err
    | .ok (ns, orb) =>
      let path ← Cmd.index opts.args 0
      match ← Cmd.remote (.OrbIncrementVersion path ns orb segment)
          (opts.apiOpts.OrbIncrementVersion path ns orb segment) with
      | .error err => return some err
      | .ok response =>
        Cmd.info ("Orb `" ++ ref ++ "` has been incremented to `" ++ ns ++ "/" ++ orb ++ "@"
          ++ response.HighestVersion ++ "`.\n")
        Cmd.info "Please note that this is an open orb and is world-readable."
        return none

/-- Source `promoteOrb`, lines 477-502. -/
def promoteOrb (refs : ReferenceParser) (opts : orbOptions) : Cmd (Option GoError) := do
  let ref ← Cmd.index opts.args 0
  let segment ← Cmd.index opts.args 1
  match validateSegmentArg segment with
  | some err => return some err
  | none =>
    match refs.SplitIntoOrbNamespaceAndVersion ref with
    | .error err => return some err
    | .ok (ns, orb, version) =>
      if !references.IsDevVersion version then
        return some (.errorf ("The version '" ++ version ++
          "' must be a dev version (the string should begin `dev:`)"))
      else
        match ← Cmd.remote (.OrbPromote ns orb version segment)
            (opts.apiOpts.OrbPromote ns orb version segment) with
        | .error err => return some err
        | .ok response =>
          Cmd.info ("Orb `" ++ ref ++ "` was promoted to `" ++ ns ++ "/" ++ orb ++ "@"
            ++ response.HighestVersion ++ "`.\n")
          Cmd.info "Please note that this is an open orb and is world-readable."
          return none

/-- Source `createOrb`, lines 504-523. -/
def createOrb (refs : ReferenceParser) (opts : orbOptions) : Cmd (Option GoError) := do
  let ref ← Cmd.index opts.args 0
  match refs.SplitIntoOrbAndNamespace ref with
  | .error err => return some err
  | .ok (ns, orb) =>
    match ← Cmd.remote (.CreateOrb ns orb) (opts.apiOpts.CreateOrb ns orb) with
    | .error err => return some err
    | .ok _ =>
      Cmd.info ("Orb `" ++ (← Cmd.index opts.args 0) ++ "` created.\n")
      Cmd.info "Please note that any versions you publish of this orb are world-readable.\n"
      Cmd.info ("You can now register versions of `" ++ (← Cmd.index opts.args 0) ++
        "` using `circleci orb publish`.\n")
      return none

/-- Source `showSource`, lines 525-534. -/
def showSource (opts : orbOptions) : Cmd (Option GoError) := do
  let ref ← Cmd.index opts.args 0
  match ← Cmd.remote (.OrbSource ref) (opts.apiOpts.OrbSource ref) with
  | .error err => return some (.wrapf err ("Failed to get source for '" ++ ref ++ "'"))
  | .ok source =>
    Cmd.info source
    return none

/-- The verb `%d` of `fmt` on a length. -/
def fmtInt (n : Nat) : String := toString n

/-- The verb `%t` of `fmt`. -/
def fmtBool (b : Bool) : String := if b then "true" else "false"

/-- Source `orbInfo`, lines 536-566. -/
def orbInfo (opts : orbOptions) : Cmd (Option GoError) := do
  let ref ← Cmd.index opts.args 0
  match ← Cmd.remote (.OrbInfo ref) (opts.apiOpts.OrbInfo ref) with
  | .error err => return some (.wrapf err ("Failed to get info for '" ++ ref ++ "'"))
  | .ok info =>
    Cmd.info "\n"
    match info.Orb.Versions, info.Orb.Versions.getLast? with
    | first :: _, some firstRelease =>
      Cmd.info ("Latest: " ++ info.Orb.Name ++ "@" ++ info.Orb.HighestVersion)
      Cmd.info ("Last-updated: " ++ first.CreatedAt)
      Cmd.info ("Created: " ++ info.Orb.CreatedAt)
      Cmd.info ("First-release: " ++ firstRelease.Version ++ " @ " ++ firstRelease.CreatedAt)
      Cmd.info ("Total-revisions: " ++ fmtInt info.Orb.Versions.length)
    | _, _ =>
      Cmd.info "This orb hasn't published any versions yet."
    Cmd.info "\n"
    Cmd.info ("Total-commands: " ++ fmtInt info.Orb.Commands.length)
    Cmd.info ("Total-executors: " ++ fmtInt info.Orb.Executors.length)
    Cmd.info ("Total-jobs: " ++ fmtInt info.Orb.Jobs.length)
    return none

/-- Source `validateOrb`, lines 384-398. -/
def validateOrb (opts : orbOptions) : Cmd (Option GoError) := do
  let path ← Cmd.index opts.args 0
  match ← Cmd.remote (.OrbQuery path) (opts.apiOpts.OrbQuery path) with
  | .error err => return some err
  | .ok _ =>
    if path = "-" then
      Cmd.info "Orb input is valid."
    else
      Cmd.info ("Orb at `" ++ path ++ "` is valid.")
    return none

/-- Source `processOrb`, lines 400-409. -/
def processOrb (opts : orbOptions) : Cmd (Option GoError) := do
  let path ← Cmd.index opts.args 0
  match ← Cmd.remote (.OrbQuery path) (opts.apiOpts.OrbQuery path) with
  | .error err => return some err
  | .ok response =>
    Cmd.info response.OutputYaml
    return none

/-! ### Rendering -/

/-- The type assertion `x.(string)`: panics unless `x` holds a string. -/
def assertString : Option api.Value → Option String
  | some (.string s) => some s
  | _ => none

/-- The type assertion `x.(bool)`: panics unless `x` holds a bool. -/
def assertBool : Option api.Value → Option Bool
  | some (.bool b) => some b
  | _ => none

/-- Source `parameterDefaultToString`; `none` is the panic of a failed type assertion. -/
def parameterDefaultToString (parameter : api.OrbElementParameter) : Option String := do
  let defaultValue := " (default: '"
  if parameter.Default = none ∨ parameter.Type_ = "steps" then
    some ""
  else
    let defaultValue ←
      match parameter.Type_ with
      | "enum" => do pure (defaultValue ++ (← assertString parameter.Default))
      | "string" => do pure (defaultValue ++ (← assertString parameter.Default))
      | "boolean" => do pure (defaultValue ++ fmtBool (← assertBool parameter.Default))
      | _ => pure (defaultValue ++ "")
    some (defaultValue ++ "')")

/-- Source `bytes.Buffer.WriteString`: appends `s`; the error it returns is always `nil`. -/
def WriteString (buf : String) (s : String) : String × Option GoError :=
  (buf ++ s, none)

/-- The `range` loop of `addOrbElementParametersToBuffer`. -/
def addOrbElementParametersLoop :
    String → List (String × api.OrbElementParameter) → Option (String × Option GoError)
  | buf, [] => some (buf, none)
  | buf, (parameterName, parameter) :: rest =>
    match parameterDefaultToString parameter with
    | none => none
    | some defaultValueString =>
      match WriteString buf ("       - " ++ parameterName ++ ": " ++ parameter.Type_ ++
          defaultValueString ++ "\n") with
      | (buf, some err) => some (buf, some err)
      | (buf, none) => addOrbElementParametersLoop buf rest

/-- Source `addOrbElementParametersToBuffer`: the buffer after and the returned error. -/
def addOrbElementParametersToBuffer (buf : String) (orbElement : api.OrbElement) :
    Option (String × Option GoError) :=
  addOrbElementParametersLoop buf orbElement.Parameters

/-- The `range` loop of `addOrbElementsToBuffer`, carrying the buffer and `err`. -/
def addOrbElementsLoop :
    String × Option GoError → List (String × api.OrbElement) → Option (String × Option GoError)
  | st, [] => some st
  | (buf, _), (elementName, orbElement) :: rest =>
    let parameterCount := orbElement.Parameters.length
    match WriteString buf ("    - " ++ elementName ++ ": " ++ fmtInt parameterCount ++
        " parameter(s)\n") with
    | (buf, err) =>
      if parameterCount > 0 then
        match addOrbElementParametersToBuffer buf orbElement with
        | none => none
        | some st => addOrbElementsLoop st rest
      else addOrbElementsLoop (buf, err) rest

/-- Source `addOrbElementsToBuffer`: the buffer after; `none` when it panics. -/
def addOrbElementsToBuffer (buf : String) (name : String)
    (namedOrbElements : List (String × api.OrbElement)) : Option String :=
  let written :=
    if namedOrbElements.length > 0 then
      addOrbElementsLoop (WriteString buf ("  " ++ name ++ ":\n")) namedOrbElements
    else some (buf, none)
  match written with
  | none => none
  | some (_, some _) => none
  | some (buf, none) => some buf

/-- Source `orbToSimpleString`: `fmt.Sprintln` puts a space between its operands and a
newline at the end. -/
def orbToSimpleString (orb : api.OrbWithData) : Option String :=
  match WriteString "" (orb.Name ++ " " ++ ("(" ++ orb.HighestVersion ++ ")") ++ "\n") with
  | (_, some _) => none
  | (buffer, none) => some buffer

/-- Source `orbToDetailedString`, lines 299-307. -/
def orbToDetailedString (orb : api.OrbWithData) : Option String := do
  let buffer ← orbToSimpleString orb
  let buffer ← addOrbElementsToBuffer buffer "Commands" orb.Commands
  let buffer ← addOrbElementsToBuffer buffer "Jobs" orb.Jobs
  let buffer ← addOrbElementsToBuffer buffer "Executors" orb.Executors
  some buffer

/-- The package-level flags of `cmd/orb.go`. -/
structure Flags where
  orbListUncertified : Bool
  orbListJSON : Bool
  orbListDetails : Bool
  deriving DecidableEq

/-- The loop of `orbCollectionToString` over `orbCollection.Orbs`. -/
def orbCollectionLoop (flags : Flags) : String → List api.OrbWithData → Option String
  | result, [] => some result
  | result, orb :: rest =>
    match (if flags.orbListDetails then orbToDetailedString orb else orbToSimpleString orb) with
    | none => none
    | some text => orbCollectionLoop flags (result ++ text) rest

/-- Source `orbCollectionToString`; `MarshalIndent` is `json.MarshalIndent` with the
indentation the source passes. -/
def orbCollectionToString (flags : Flags)
    (MarshalIndent : api.OrbsForListing → Except GoError String)
    (orbCollection : api.OrbsForListing) : Option (String × Option GoError) :=
  if flags.orbListJSON then
    match MarshalIndent orbCollection with
    | .error err => some ("", some (.wrapf err "Failed to convert to convert to JSON"))
    | .ok orbJSON => some (orbJSON, none)
  else
    let result := "" ++ ("Orbs found: " ++ fmtInt orbCollection.Orbs.length ++ ". ")
    let result :=
      if flags.orbListUncertified then
        result ++ "Includes all certified and uncertified orbs.\n\n"
      else
        result ++ "Showing only certified orbs. Add -u for a list of all orbs.\n\n"
    match orbCollectionLoop flags result orbCollection.Orbs with
    | none => none
    | some result => some (result, none)

/-- Source `logOrbs`, lines 349-358. -/
def logOrbs (flags : Flags) (MarshalIndent : api.OrbsForListing → Except GoError String)
    (orbCollection : api.OrbsForListing) : Cmd (Option GoError) :=
  match orbCollectionToString flags MarshalIndent orbCollection with
  | none => Cmd.panic
  | some (_, some err) => pure (some err)
  | some (result, none) => do
    Cmd.info result
    return none

/-- Source `listNamespaceOrbs`, lines 373-382. -/
def listNamespaceOrbs (flags : Flags)
    (MarshalIndent : api.OrbsForListing → Except GoError String)
    (opts : orbOptions) : Cmd (Option GoError) := do
  let ns ← Cmd.index opts.args 0
  match ← Cmd.remote (.ListNamespaceOrbs ns) (opts.apiOpts.ListNamespaceOrbs ns) with
  | .error err => return some (.wrapf err ("Failed to list orbs in namespace `" ++ ns ++ "`"))
  | .ok orbs => logOrbs flags MarshalIndent orbs

/-- Source `listOrbs`, lines 360-371. -/
def listOrbs (flags : Flags) (MarshalIndent : api.OrbsForListing → Except GoError String)
    (opts : orbOptions) : Cmd (Option GoError) :=
  if opts.args.length ≠ 0 then
    listNamespaceOrbs flags MarshalIndent opts
  else do
    match ← Cmd.remote (.ListOrbs flags.orbListUncertified)
        (opts.apiOpts.ListOrbs flags.orbListUncertified) with
    | .error err => return some (.wrapf err "Failed to list orbs")
    | .ok orbs => logOrbs flags MarshalIndent orbs

/-! ### The rendering in the words of the specification -/

/-- Simple form: `<name> (<highestVersion>)`, one line. -/
def simpleForm (orb : api.OrbWithData) : String :=
  orb.Name ++ " (" ++ orb.HighestVersion ++ ")\n"

/-- The lines of a block, one after the other. -/
def joinLines : List String → String
  | [] => ""
  | line :: rest => line ++ joinLines rest

/-- One line per parameter: `<paramName>: <type><defaultSuffix>`. -/
def parameterLine (p : String × api.OrbElementParameter) : String :=
  "       - " ++ p.1 ++ ": " ++ p.2.Type_ ++ (parameterDefaultToString p.2).getD "" ++ "\n"

/-- One line per element, `<elementName>: <N> parameter(s)`, followed by its
parameter lines. -/
def elementLines (e : String × api.OrbElement) : String :=
  "    - " ++ e.1 ++ ": " ++ fmtInt e.2.Parameters.length ++ " parameter(s)\n" ++
    joinLines (e.2.Parameters.map parameterLine)

/-- A section: nothing for an empty mapping, else the header and the elements. -/
def sectionText (name : String) (elements : List (String × api.OrbElement)) : String :=
  if elements = [] then ""
  else "  " ++ name ++ ":\n" ++ joinLines (elements.map elementLines)

/-- Detailed form: the simple form, then Commands, Jobs, Executors. -/
def detailedForm (orb : api.OrbWithData) : String :=
  simpleForm orb ++ sectionText "Commands" orb.Commands ++ sectionText "Jobs" orb.Jobs ++
    sectionText "Executors" orb.Executors

/-- The invariant of `OrbElementParameter` in the data model (spec section 3):
the representation of `default` depends on `type`. A present default is a
string for `enum` and `string` and a bool for `boolean`, which is what the type
assertions of `parameterDefaultToString` rely on. -/
def typedDefault (p : api.OrbElementParameter) : Bool :=
  match p.Default with
  | none => true
  | some d =>
    match p.Type_ with
    | "enum" => (match d with | .string _ => true | _ => false)
    | "string" => (match d with | .string _ => true | _ => false)
    | "boolean" => (match d with | .bool _ => true | _ => false)
    | _ => true

/-- The elements of a mapping are of the data model: every parameter of every
element satisfies `typedDefault`. -/
def typedElements (elements : List (String × api.OrbElement)) : Prop :=
  ∀ e ∈ elements, ∀ p ∈ e.2.Parameters, typedDefault p.2 = true

/-- An orb with two commands and one executor, all defaults typed. -/
def exampleOrb : api.OrbWithData where
  Name := "foo/bar"
  HighestVersion := "1.1.0"
  CreatedAt := "2018-09-24"
  Versions := []
  Commands :=
    [("greet", ⟨[("to", ⟨"string", some (.string "world")⟩),
                 ("loud", ⟨"boolean", some (.bool true)⟩)]⟩),
     ("bye", ⟨[]⟩)]
  Jobs := []
  Executors := [("x", ⟨[("n", ⟨"integer", some (.other "float64")⟩)]⟩)]

end cmd

/-- A registry whose every call succeeds; the version-changing calls answer
with highest version `1.1.0`, `OrbID` with the identifier `orb-id`. -/
def stubRegistry : api.Options where
  ListOrbs := fun _ => .ok ⟨[]⟩
  ListNamespaceOrbs := fun _ => .ok ⟨[]⟩
  OrbQuery := fun _ => .ok ⟨""⟩
  OrbID := fun _ _ => .ok ⟨⟨"orb-id"⟩⟩
  OrbPublishByID := fun _ _ _ => .ok ⟨"1.1.0"⟩
  OrbIncrementVersion := fun _ _ _ _ => .ok ⟨"1.1.0"⟩
  OrbPromote := fun _ _ _ _ => .ok ⟨"1.1.0"⟩
  CreateOrb := fun _ _ => .ok ()
  OrbSource := fun _ => .ok "version: 2.1\n"
  OrbInfo := fun _ => .ok ⟨⟨"foo/bar", "1.1.0", "2018-09-24", [], [], [], []⟩⟩

/-- A registry whose every call fails with `e`. -/
def failingRegistry (e : GoError) : api.Options where
  ListOrbs := fun _ => .error e
  ListNamespaceOrbs := fun _ => .error e
  OrbQuery := fun _ => .error e
  OrbID := fun _ _ => .error e
  OrbPublishByID := fun _ _ _ => .error e
  OrbIncrementVersion := fun _ _ _ _ => .error e
  OrbPromote := fun _ _ _ _ => .error e
  CreateOrb := fun _ _ => .error e
  OrbSource := fun _ => .error e
  OrbInfo := fun _ => .error e

/-! ## Running commands -/

@[simp] theorem Cmd.pure_run {α : Type} (a : α) (w : World) :
    (pure a : Cmd α) w = some (a, w) := rfl

@[simp] theorem Cmd.bind_run {α β : Type} (m : Cmd α) (f : α → Cmd β) (w : World) :
    (m >>= f) w = match m w with
      | none => none
      | some (a, w') => f a w' := rfl

@[simp] theorem Cmd.remote_run {α : Type} (c : RemoteCall) (r : Except GoError α) (w : World) :
    Cmd.remote c r w = some (r, { w with calls := w.calls ++ [c] }) := rfl

@[simp] theorem Cmd.info_run (m : String) (w : World) :
    Cmd.info m w = some ((), { w with log := w.log ++ [m] }) := rfl

@[simp] theorem Cmd.index_zero (a : String) (as : List String) (w : World) :
    Cmd.index (a :: as) 0 w = some (a, w) := rfl

@[simp] theorem Cmd.index_one (a b : String) (as : List String) (w : World) :
    Cmd.index (a :: b :: as) 1 w = some (b, w) := rfl

@[simp] theorem Cmd.index_two (a b c : String) (as : List String) (w : World) :
    Cmd.index (a :: b :: c :: as) 2 w = some (c, w) := rfl

namespace cmd

theorem validateSegmentArg_eq_none_iff (s : String) :
    validateSegmentArg s = none ↔ s = "major" ∨ s = "minor" ∨ s = "patch" := by
  unfold validateSegmentArg validSegments
  by_cases h1 : s = "major"
  · subst h1; simp [List.lookup]
  by_cases h2 : s = "minor"
  · subst h2; simp [List.lookup]
  by_cases h3 : s = "patch"
  · subst h3; simp [List.lookup]
  have e1 : (s == "major") = false := by simp [h1]
  have e2 : (s == "minor") = false := by simp [h2]
  have e3 : (s == "patch") = false := by simp [h3]
  simp [List.lookup, h1, h2, h3, e1, e2, e3]

theorem validateSegmentArg_of_valid (s : String)
    (h : s = "major" ∨ s = "minor" ∨ s = "patch") : validateSegmentArg s = none :=
  (validateSegmentArg_eq_none_iff s).2 h

theorem validateSegmentArg_of_invalid (s : String)
    (h : ¬ (s = "major" ∨ s = "minor" ∨ s = "patch")) :
    validateSegmentArg s =
      some (.errorf ("expected `" ++ s ++ "` to be one of \"major\", \"minor\", or \"patch\"")) := by
  have hne : validateSegmentArg s ≠ none := fun hn => h ((validateSegmentArg_eq_none_iff s).1 hn)
  unfold validateSegmentArg at hne ⊢
  split
  · rename_i heq
    rw [heq] at hne
    exact absurd rfl hne
  · rfl

/-- C1: `validateSegmentArg s` returns no error exactly when `s` is one of the
literals `major`, `minor`, `patch`; `Major` fails; and a failure carries a
message that contains the offending label. -/
theorem validateSegmentArg_accepts_exactly_three (s : String) :
    (validateSegmentArg s = none ↔ s = "major" ∨ s = "minor" ∨ s = "patch") ∧
    validateSegmentArg "Major" ≠ none ∧
    (validateSegmentArg s ≠ none →
      ∃ before after, validateSegmentArg s = some (.errorf (before ++ s ++ after))) := by
  refine ⟨validateSegmentArg_eq_none_iff s, by decide, fun hne => ?_⟩
  refine ⟨"expected `", "` to be one of \"major\", \"minor\", or \"patch\"", ?_⟩
  rw [validateSegmentArg_of_invalid s (fun h => hne ((validateSegmentArg_eq_none_iff s).2 h))]

/-- C1 at `Major`: it is rejected, and the message names it. -/
theorem validateSegmentArg_accepts_exactly_three_witness :
    validateSegmentArg "Major" ≠ none ∧
    ∃ before after, validateSegmentArg "Major" = some (.errorf (before ++ "Major" ++ after)) :=
  ⟨by decide, (validateSegmentArg_accepts_exactly_three "Major").2.2 (by decide)⟩

/-- C2: when the reference parses and its version does not begin with `dev:`,
`promoteOrb` with a valid segment returns the error that asks for a dev version,
and the trace of registry calls is empty. -/
theorem promoteOrb_released_version_no_remote_call (refs : ReferenceParser)
    (registry : api.Options) (ref segment ns orb version : String)
    (hseg : segment = "major" ∨ segment = "minor" ∨ segment = "patch")
    (hparse : refs.SplitIntoOrbNamespaceAndVersion ref = .ok (ns, orb, version))
    (hdev : references.IsDevVersion version = false) :
    promoteOrb refs ⟨registry, [ref, segment]⟩ World.start =
      some (some (.errorf ("The version '" ++ version ++
        "' must be a dev version (the string should begin `dev:`)")), ⟨[], []⟩) := by
  simp [promoteOrb, validateSegmentArg_of_valid segment hseg, hparse, hdev, World.start]

/-- C2 at `circleci/python@0.1.4` with segment `major`. -/
theorem promoteOrb_released_version_no_remote_call_witness :
    promoteOrb references.parser ⟨stubRegistry, ["circleci/python@0.1.4", "major"]⟩ World.start =
      some (some (.errorf
        "The version '0.1.4' must be a dev version (the string should begin `dev:`)"), ⟨[], []⟩) :=
  promoteOrb_released_version_no_remote_call references.parser stubRegistry
    "circleci/python@0.1.4" "major" "circleci" "python" "0.1.4" (by decide) (by rfl) (by decide)

/-- C3: in `publishOrb`, `incrementOrb` and `promoteOrb`, a reference that fails
to parse or a segment outside `major`, `minor`, `patch` ends the command with an
error and an empty trace of registry calls. -/
theorem local_validation_before_remote_calls (refs : ReferenceParser)
    (registry : api.Options) (path ref segment : String) :
    (∀ e, refs.SplitIntoOrbNamespaceAndVersion ref = .error e →
      publishOrb refs ⟨registry, [path, ref]⟩ World.start = some (some e, ⟨[], []⟩)) ∧
    ((¬ (segment = "major" ∨ segment = "minor" ∨ segment = "patch") ∨
        ∃ e, refs.SplitIntoOrbAndNamespace ref = .error e) →
      ∃ e, incrementOrb refs ⟨registry, [path, ref, segment]⟩ World.start =
        some (some e, ⟨[], []⟩)) ∧
    ((¬ (segment = "major" ∨ segment = "minor" ∨ segment = "patch") ∨
        ∃ e, refs.SplitIntoOrbNamespaceAndVersion ref = .error e) →
      ∃ e, promoteOrb refs ⟨registry, [ref, segment]⟩ World.start =
        some (some e, ⟨[], []⟩)) := by
  refine ⟨?_, ?_, ?_⟩
  · intro e he
    simp [publishOrb, he, World.start]
  · intro h
    by_cases hseg : segment = "major" ∨ segment = "minor" ∨ segment = "patch"
    · rcases h with h | ⟨e, he⟩
      · exact absurd hseg h
      · exact ⟨e, by simp [incrementOrb, validateSegmentArg_of_valid segment hseg, he, World.start]⟩
    · exact ⟨.errorf ("expected `" ++ segment ++
          "` to be one of \"major\", \"minor\", or \"patch\""),
        by simp [incrementOrb, validateSegmentArg_of_invalid segment hseg, World.start]⟩
  · intro h
    by_cases hseg : segment = "major" ∨ segment = "minor" ∨ segment = "patch"
    · rcases h with h | ⟨e, he⟩
      · exact absurd hseg h
      · exact ⟨e, by simp [promoteOrb, validateSegmentArg_of_valid segment hseg, he, World.start]⟩
    · exact ⟨.errorf ("expected `" ++ segment ++
          "` to be one of \"major\", \"minor\", or \"patch\""),
        by simp [promoteOrb, validateSegmentArg_of_invalid segment hseg, World.start]⟩

/-- C3 at the reference `foobar` (no `/`, no `@`) and the segment `Major`, against
a registry that would answer every call. -/
theorem local_validation_before_remote_calls_witness :
    publishOrb references.parser ⟨stubRegistry, ["orb.yml", "foobar"]⟩ World.start =
      some (some (.foreign "InvalidReferenceFormat" "foobar"), ⟨[], []⟩) ∧
    (∃ e, incrementOrb references.parser ⟨stubRegistry, ["orb.yml", "foobar", "Major"]⟩
      World.start = some (some e, ⟨[], []⟩)) ∧
    (∃ e, promoteOrb references.parser ⟨stubRegistry, ["foobar", "Major"]⟩
      World.start = some (some e, ⟨[], []⟩)) :=
  have h := local_validation_before_remote_calls references.parser stubRegistry
    "orb.yml" "foobar" "Major"
  ⟨h.1 _ (by rfl), h.2.1 (Or.inl (by decide)), h.2.2 (Or.inl (by decide))⟩

/-- C4, as stated, fails: with the malformed reference `foobar` and the invalid
segment `Major`, `incrementOrb` returns the error of `validateSegmentArg`, not the
error of the reference parser. -/
theorem incrementOrb_reports_segment_before_reference :
    references.parser.SplitIntoOrbAndNamespace "foobar" =
      .error (.foreign "InvalidReferenceFormat" "foobar") ∧
    validateSegmentArg "Major" ≠ none ∧
    incrementOrb references.parser ⟨stubRegistry, ["orb.yml", "foobar", "Major"]⟩ World.start =
      some (some (.errorf "expected `Major` to be one of \"major\", \"minor\", or \"patch\""),
        ⟨[], []⟩) ∧
    incrementOrb references.parser ⟨stubRegistry, ["orb.yml", "foobar", "Major"]⟩ World.start ≠
      some (some (.foreign "InvalidReferenceFormat" "foobar"), ⟨[], []⟩) := by
  refine ⟨by rfl, by decide, by rfl, by decide⟩

/-- C4, amended: `incrementOrb` validates the segment first and parses the
reference second. With a malformed reference and an invalid segment it fails
with the error of `validateSegmentArg`, which carries the segment; the parser is
not what fails it. No registry call is made. -/
theorem incrementOrb_segment_validated_first (refs : ReferenceParser)
    (registry : api.Options) (path ref segment : String) (e : GoError)
    (href : refs.SplitIntoOrbAndNamespace ref = .error e)
    (hseg : ¬ (segment = "major" ∨ segment = "minor" ∨ segment = "patch")) :
    incrementOrb refs ⟨registry, [path, ref, segment]⟩ World.start =
      some (validateSegmentArg segment, ⟨[], []⟩) ∧
    validateSegmentArg segment =
      some (.errorf ("expected `" ++ segment ++
        "` to be one of \"major\", \"minor\", or \"patch\"")) := by
  have hv := validateSegmentArg_of_invalid segment hseg
  have _ := href
  exact ⟨by simp [incrementOrb, hv, World.start], hv⟩

/-- C4, amended, at the reference `foobar` and the segment `Major`. -/
theorem incrementOrb_segment_validated_first_witness :
    incrementOrb references.parser ⟨stubRegistry, ["orb.yml", "foobar", "Major"]⟩ World.start =
      some (validateSegmentArg "Major", ⟨[], []⟩) ∧
    validateSegmentArg "Major" =
      some (.errorf ("expected `" ++ "Major" ++
        "` to be one of \"major\", \"minor\", or \"patch\"")) :=
  incrementOrb_segment_validated_first references.parser stubRegistry "orb.yml" "foobar" "Major"
    (.foreign "InvalidReferenceFormat" "foobar") (by rfl) (by decide)

/-- C5: `publishOrb` always returns, and its trace is empty when the reference
fails to parse, `[OrbID]` when resolution fails, and `[OrbID, OrbPublishByID]`
otherwise, where `OrbID` carries the parsed namespace and name and
`OrbPublishByID` carries the path, the identifier `OrbID` answered and the parsed
version; the trace never has more than two calls. -/
theorem publishOrb_resolves_then_publishes (refs : ReferenceParser)
    (registry : api.Options) (path ref : String) :
    ∃ result w, publishOrb refs ⟨registry, [path, ref]⟩ World.start = some (result, w) ∧
      w.calls.length ≤ 2 ∧
      match refs.SplitIntoOrbNamespaceAndVersion ref with
      | .error e => w.calls = [] ∧ result = some e
      | .ok (ns, orb, version) =>
        match registry.OrbID ns orb with
        | .error e => w.calls = [.OrbID ns orb] ∧ result = some e
        | .ok id =>
          w.calls = [.OrbID ns orb, .OrbPublishByID path id.Orb.ID version] ∧
          result = (match registry.OrbPublishByID path id.Orb.ID version with
            | .error e => some e
            | .ok _ => none) := by
  cases hparse : refs.SplitIntoOrbNamespaceAndVersion ref with
  | error e => exact ⟨some e, ⟨[], []⟩, by simp [publishOrb, hparse, World.start], by simp, by simp⟩
  | ok parsed =>
    obtain ⟨ns, orb, version⟩ := parsed
    cases hid : registry.OrbID ns orb with
    | error e =>
      exact ⟨some e, ⟨[.OrbID ns orb], []⟩, by simp [publishOrb, hparse, hid, World.start],
        by simp, by simp [hid]⟩
    | ok id =>
      cases hpub : registry.OrbPublishByID path id.Orb.ID version with
      | error e =>
        exact ⟨some e, ⟨[.OrbID ns orb, .OrbPublishByID path id.Orb.ID version], []⟩,
          by simp [publishOrb, hparse, hid, hpub, World.start], by simp, by simp [hid, hpub]⟩
      | ok published =>
        by_cases hdev : references.IsDevVersion version = true
        · exact ⟨none, ⟨[.OrbID ns orb, .OrbPublishByID path id.Orb.ID version], _⟩,
            by simp [publishOrb, hparse, hid, hpub, hdev, World.start]; rfl,
            by simp, by simp [hid, hpub]⟩
        · exact ⟨none, ⟨[.OrbID ns orb, .OrbPublishByID path id.Orb.ID version], _⟩,
            by simp [publishOrb, hparse, hid, hpub, hdev, World.start]; rfl,
            by simp, by simp [hid, hpub]⟩

/-- C6: for a reference that parses to `ns/name`, a valid segment and a registry
whose `OrbIncrementVersion` answers with highest version `v`, `incrementOrb`
succeeds, its trace is the single call `OrbIncrementVersion path ns name segment`,
and the message it logs contains `ns/name@v`. -/
theorem incrementOrb_success (refs : ReferenceParser) (registry : api.Options)
    (path ref segment ns orb : String) (response : api.Orb)
    (hseg : segment = "major" ∨ segment = "minor" ∨ segment = "patch")
    (hparse : refs.SplitIntoOrbAndNamespace ref = .ok (ns, orb))
    (hcall : registry.OrbIncrementVersion path ns orb segment = .ok response) :
    ∃ before after,
      incrementOrb refs ⟨registry, [path, ref, segment]⟩ World.start =
        some (none, ⟨[.OrbIncrementVersion path ns orb segment],
          [before ++ (ns ++ "/" ++ orb ++ "@" ++ response.HighestVersion) ++ after,
           "Please note that this is an open orb and is world-readable."]⟩) := by
  refine ⟨"Orb `" ++ ref ++ "` has been incremented to `", "`.\n", ?_⟩
  simp [incrementOrb, validateSegmentArg_of_valid segment hseg, hparse, hcall, World.start,
    String.append_assoc]

/-- C6 at the scenario of the spec: `foo/bar`, `minor`, registry answer `1.1.0`. -/
theorem incrementOrb_success_witness :
    ∃ before after,
      incrementOrb references.parser ⟨stubRegistry, ["foo/orb.yml", "foo/bar", "minor"]⟩
          World.start =
        some (none, ⟨[.OrbIncrementVersion "foo/orb.yml" "foo" "bar" "minor"],
          [before ++ ("foo" ++ "/" ++ "bar" ++ "@" ++ "1.1.0") ++ after,
           "Please note that this is an open orb and is world-readable."]⟩) :=
  incrementOrb_success references.parser stubRegistry "foo/orb.yml" "foo/bar" "minor" "foo" "bar"
    ⟨"1.1.0"⟩ (by decide) (by rfl) (by rfl)

/-- C7, as stated, fails: an `integer` parameter with a default renders the
suffix with an empty quoted value, not the empty string. -/
theorem parameterDefaultToString_other_type_not_empty :
    parameterDefaultToString ⟨"integer", some (.other "float64")⟩ = some " (default: '')" ∧
    parameterDefaultToString ⟨"integer", some (.other "float64")⟩ ≠ some "" := by
  refine ⟨by rfl, by decide⟩

theorem parameterDefaultToString_other_type_aux (p : api.OrbElementParameter) (d : api.Value)
    (hd : p.Default = some d) (henum : p.Type_ ≠ "enum") (hstring : p.Type_ ≠ "string")
    (hbool : p.Type_ ≠ "boolean") (hsteps : p.Type_ ≠ "steps") :
    parameterDefaultToString p = some " (default: '')" := by
  unfold parameterDefaultToString
  have _ := henum
  have _ := hstring
  have _ := hbool
  simp only [hd, hsteps, or_self, if_false, reduceCtorEq]
  rfl

/-- C7, amended: for a parameter whose type is none of `enum`, `string`,
`boolean`, `steps` and whose default is present, `parameterDefaultToString`
returns the default suffix with an empty quoted value. -/
theorem parameterDefaultToString_other_type (p : api.OrbElementParameter) (d : api.Value)
    (hd : p.Default = some d) (henum : p.Type_ ≠ "enum") (hstring : p.Type_ ≠ "string")
    (hbool : p.Type_ ≠ "boolean") (hsteps : p.Type_ ≠ "steps") :
    parameterDefaultToString p = some " (default: '')" :=
  parameterDefaultToString_other_type_aux p d hd henum hstring hbool hsteps

/-- C7, amended, at an `integer` parameter with a numeric default. -/
theorem parameterDefaultToString_other_type_witness :
    parameterDefaultToString ⟨"integer", some (.other "float64")⟩ = some " (default: '')" :=
  parameterDefaultToString_other_type ⟨"integer", some (.other "float64")⟩ (.other "float64")
    rfl (by decide) (by decide) (by decide) (by decide)

theorem parameterDefaultToString_no_default (p : api.OrbElementParameter)
    (hd : p.Default = none) : parameterDefaultToString p = some "" := by
  simp [parameterDefaultToString, hd]

theorem parameterDefaultToString_steps (p : api.OrbElementParameter)
    (ht : p.Type_ = "steps") : parameterDefaultToString p = some "" := by
  simp [parameterDefaultToString, ht]

theorem parameterDefaultToString_boolean (p : api.OrbElementParameter) (b : Bool)
    (ht : p.Type_ = "boolean") (hd : p.Default = some (.bool b)) :
    parameterDefaultToString p = some (" (default: '" ++ fmtBool b ++ "')") := by
  obtain ⟨t, d⟩ := p
  simp only at ht hd
  subst ht hd
  rfl

theorem parameterDefaultToString_enum (p : api.OrbElementParameter) (d : String)
    (ht : p.Type_ = "enum") (hd : p.Default = some (.string d)) :
    parameterDefaultToString p = some (" (default: '" ++ d ++ "')") := by
  obtain ⟨t, d'⟩ := p
  simp only at ht hd
  subst ht hd
  rfl

theorem parameterDefaultToString_string (p : api.OrbElementParameter) (d : String)
    (ht : p.Type_ = "string") (hd : p.Default = some (.string d)) :
    parameterDefaultToString p = some (" (default: '" ++ d ++ "')") := by
  obtain ⟨t, d'⟩ := p
  simp only at ht hd
  subst ht hd
  rfl

/-- C8: `parameterDefaultToString` returns the empty string when the default is
absent and for every `steps` parameter; for a `boolean` parameter with the
boolean default `b` it returns the suffix quoting `true` or `false`; for an
`enum` or `string` parameter with the string default `d` it returns the suffix
quoting `d` verbatim. -/
theorem parameterDefaultToString_rules (p : api.OrbElementParameter) :
    (p.Default = none → parameterDefaultToString p = some "") ∧
    (p.Type_ = "steps" → parameterDefaultToString p = some "") ∧
    (p.Type_ = "boolean" → p.Default = some (.bool true) →
      parameterDefaultToString p = some " (default: 'true')") ∧
    (p.Type_ = "boolean" → p.Default = some (.bool false) →
      parameterDefaultToString p = some " (default: 'false')") ∧
    (∀ d : String, p.Type_ = "enum" ∨ p.Type_ = "string" → p.Default = some (.string d) →
      parameterDefaultToString p = some (" (default: '" ++ d ++ "')")) := by
  refine ⟨parameterDefaultToString_no_default p, parameterDefaultToString_steps p,
    fun ht hd => ?_, fun ht hd => ?_, fun d ht hd => ?_⟩
  · rw [parameterDefaultToString_boolean p true ht hd]; rfl
  · rw [parameterDefaultToString_boolean p false ht hd]; rfl
  · rcases ht with ht | ht
    · exact parameterDefaultToString_enum p d ht hd
    · exact parameterDefaultToString_string p d ht hd

/-- C8 at concrete parameters: no default, `steps` with a default, `boolean`
with `true`, `string` with `world`. -/
theorem parameterDefaultToString_rules_witness :
    parameterDefaultToString ⟨"string", none⟩ = some "" ∧
    parameterDefaultToString ⟨"steps", some (.other "list")⟩ = some "" ∧
    parameterDefaultToString ⟨"boolean", some (.bool true)⟩ = some " (default: 'true')" ∧
    parameterDefaultToString ⟨"string", some (.string "world")⟩ =
      some (" (default: '" ++ "world" ++ "')") :=
  ⟨(parameterDefaultToString_rules ⟨"string", none⟩).1 rfl,
   (parameterDefaultToString_rules ⟨"steps", some (.other "list")⟩).2.1 rfl,
   (parameterDefaultToString_rules ⟨"boolean", some (.bool true)⟩).2.2.1 rfl rfl,
   (parameterDefaultToString_rules ⟨"string", some (.string "world")⟩).2.2.2.2 "world"
     (Or.inr rfl) rfl⟩

theorem parameterDefaultToString_of_typed (p : api.OrbElementParameter)
    (h : typedDefault p = true) : ∃ suffix, parameterDefaultToString p = some suffix := by
  obtain ⟨t, d⟩ := p
  cases d with
  | none => exact ⟨"", parameterDefaultToString_no_default _ rfl⟩
  | some d =>
    by_cases hsteps : t = "steps"
    · exact ⟨"", parameterDefaultToString_steps _ hsteps⟩
    by_cases henum : t = "enum"
    · subst henum
      cases d with
      | string v => exact ⟨_, parameterDefaultToString_enum _ v rfl rfl⟩
      | bool b => simp [typedDefault] at h
      | other n => simp [typedDefault] at h
    by_cases hstring : t = "string"
    · subst hstring
      cases d with
      | string v => exact ⟨_, parameterDefaultToString_string _ v rfl rfl⟩
      | bool b => simp [typedDefault] at h
      | other n => simp [typedDefault] at h
    by_cases hbool : t = "boolean"
    · subst hbool
      cases d with
      | string v => simp [typedDefault] at h
      | bool b => exact ⟨_, parameterDefaultToString_boolean _ b rfl rfl⟩
      | other n => simp [typedDefault] at h
    exact ⟨_, parameterDefaultToString_other_type_aux ⟨t, some d⟩ d rfl henum hstring hbool hsteps⟩

theorem addOrbElementParametersLoop_eq (ps : List (String × api.OrbElementParameter))
    (h : ∀ p ∈ ps, typedDefault p.2 = true) (buf : String) :
    addOrbElementParametersLoop buf ps = some (buf ++ joinLines (ps.map parameterLine), none) := by
  induction ps generalizing buf with
  | nil => simp [addOrbElementParametersLoop, joinLines]
  | cons p rest ih =>
    obtain ⟨parameterName, parameter⟩ := p
    obtain ⟨suffix, hs⟩ := parameterDefaultToString_of_typed parameter
      (h (parameterName, parameter) (List.mem_cons_self _ _))
    have hrest : ∀ q ∈ rest, typedDefault q.2 = true :=
      fun q hq => h q (List.mem_cons_of_mem _ hq)
    simp only [addOrbElementParametersLoop, hs, WriteString, ih hrest, List.map_cons, joinLines,
      parameterLine, Option.getD_some, String.append_assoc]

theorem addOrbElementsLoop_eq (elements : List (String × api.OrbElement))
    (h : typedElements elements) (buf : String) :
    addOrbElementsLoop (buf, none) elements =
      some (buf ++ joinLines (elements.map elementLines), none) := by
  induction elements generalizing buf with
  | nil => simp [addOrbElementsLoop, joinLines]
  | cons e rest ih =>
    obtain ⟨elementName, orbElement⟩ := e
    have hrest : typedElements rest := fun q hq => h q (List.mem_cons_of_mem _ hq)
    have hparams : ∀ p ∈ orbElement.Parameters, typedDefault p.2 = true :=
      h (elementName, orbElement) (List.mem_cons_self _ _)
    by_cases hcount : orbElement.Parameters.length > 0
    · simp only [addOrbElementsLoop, WriteString, hcount, if_true,
        addOrbElementParametersToBuffer, addOrbElementParametersLoop_eq _ hparams, ih hrest,
        List.map_cons, joinLines, elementLines, String.append_assoc]
    · have hnil : orbElement.Parameters = [] := by
        cases hp : orbElement.Parameters with
        | nil => rfl
        | cons a l => rw [hp] at hcount; simp at hcount
      simp only [addOrbElementsLoop, WriteString, hnil, List.length_nil, gt_iff_lt,
        lt_self_iff_false, if_false, ih hrest, List.map_cons, List.map_nil, joinLines,
        elementLines, String.append_assoc, String.append_empty]

theorem addOrbElementsToBuffer_eq (buf name : String)
    (elements : List (String × api.OrbElement)) (h : typedElements elements) :
    addOrbElementsToBuffer buf name elements = some (buf ++ sectionText name elements) := by
  cases elements with
  | nil => simp [addOrbElementsToBuffer, sectionText]
  | cons e rest =>
    simp only [addOrbElementsToBuffer, List.length_cons, gt_iff_lt, Nat.zero_lt_succ, if_true,
      WriteString, addOrbElementsLoop_eq _ h, sectionText, reduceCtorEq, if_false,
      String.append_assoc]

/-- Outside the data model the rendering is not defined: for a `string`
parameter whose default is a boolean the type assertion of
`parameterDefaultToString` panics, so `typedElements` is needed below. -/
theorem orbToDetailedString_panics_on_untyped_default :
    orbToSimpleString ⟨"foo/bar", "1.1.0", "", [],
      [("greet", ⟨[("to", ⟨"string", some (.bool true)⟩)]⟩)], [], []⟩ =
        some "foo/bar (1.1.0)\n" ∧
    orbToDetailedString ⟨"foo/bar", "1.1.0", "", [],
      [("greet", ⟨[("to", ⟨"string", some (.bool true)⟩)]⟩)], [], []⟩ = none := by
  refine ⟨by rfl, by rfl⟩

/-- C9: for every orb of the data model (spec section 3: the representation of
a default depends on the type of its parameter), `orbToDetailedString` returns
the simple form `<name> (<highestVersion>)` followed by the Commands, Jobs and
Executors sections in that order; a section is written only for a non-empty
mapping, so with all three empty the result is the simple form; an element
contributes the line `<elementName>: <N> parameter(s)` and, with no parameters,
nothing else. -/
theorem orbToDetailedString_layout (orb : api.OrbWithData)
    (hc : typedElements orb.Commands) (hj : typedElements orb.Jobs)
    (he : typedElements orb.Executors) :
    orbToSimpleString orb = some (orb.Name ++ " (" ++ orb.HighestVersion ++ ")\n") ∧
    orbToDetailedString orb =
      some (simpleForm orb ++ sectionText "Commands" orb.Commands ++
        sectionText "Jobs" orb.Jobs ++ sectionText "Executors" orb.Executors) ∧
    (orb.Commands = [] → orb.Jobs = [] → orb.Executors = [] →
      orbToDetailedString orb = orbToSimpleString orb) ∧
    (∀ name, sectionText name [] = "") ∧
    (∀ name e rest, sectionText name (e :: rest) =
      "  " ++ name ++ ":\n" ++ joinLines ((e :: rest).map elementLines)) ∧
    (∀ name element, element.Parameters = [] →
      elementLines (name, element) = "    - " ++ name ++ ": 0 parameter(s)\n") := by
  have hparen : ∀ t : String, " (" ++ t = " " ++ ("(" ++ t) := fun t => by
    rw [← String.append_assoc]
    rfl
  have hsimple : orbToSimpleString orb = some (simpleForm orb) := by
    simp only [orbToSimpleString, WriteString, simpleForm, String.append_assoc, hparen,
      String.empty_append]
    rfl
  have hdetailed : orbToDetailedString orb =
      some (simpleForm orb ++ sectionText "Commands" orb.Commands ++
        sectionText "Jobs" orb.Jobs ++ sectionText "Executors" orb.Executors) := by
    simp [orbToDetailedString, hsimple, addOrbElementsToBuffer_eq _ _ _ hc,
      addOrbElementsToBuffer_eq _ _ _ hj, addOrbElementsToBuffer_eq _ _ _ he]
  refine ⟨hsimple, hdetailed, ?_, ?_, ?_, ?_⟩
  · intro h1 h2 h3
    rw [hdetailed, hsimple, h1, h2, h3]
    simp [sectionText]
  · intro name
    simp [sectionText]
  · intro name e rest
    simp [sectionText]
  · intro name element hnil
    have hzero : (": 0 parameter(s)\n" : String) = ": " ++ fmtInt 0 ++ " parameter(s)\n" := by
      decide
    simp only [elementLines, hnil, List.length_nil, List.map_nil, joinLines,
      String.append_empty, String.append_assoc, hzero]

/-- C9 at `exampleOrb`: the Jobs section is absent, `bye` has no parameter
lines. -/
theorem orbToDetailedString_layout_witness :
    orbToDetailedString exampleOrb =
      some ("foo/bar (1.1.0)\n" ++
        "  Commands:\n" ++
        "    - greet: 2 parameter(s)\n" ++
        "       - to: string (default: 'world')\n" ++
        "       - loud: boolean (default: 'true')\n" ++
        "    - bye: 0 parameter(s)\n" ++
        "  Executors:\n" ++
        "    - x: 1 parameter(s)\n" ++
        "       - n: integer (default: '')\n") :=
  (orbToDetailedString_layout exampleOrb (by unfold typedElements; decide)
    (by unfold typedElements; decide) (by unfold typedElements; decide)).2.1.trans (by rfl)

/-- C10, as stated, fails: when `OrbID` fails with `e`, `publishOrb` returns `e`
itself, not `e` wrapped in a contextual message. -/
theorem publishOrb_returns_registry_error_bare :
    publishOrb references.parser
        ⟨failingRegistry (.foreign "RegistryError" "not found"), ["orb.yml", "foo/bar@0.0.1"]⟩
        World.start =
      some (some (.foreign "RegistryError" "not found"), ⟨[.OrbID "foo" "bar"], []⟩) ∧
    ¬ ∃ context w, publishOrb references.parser
        ⟨failingRegistry (.foreign "RegistryError" "not found"), ["orb.yml", "foo/bar@0.0.1"]⟩
        World.start =
      some (some (.wrapf (.foreign "RegistryError" "not found") context), w) := by
  have h : publishOrb references.parser
        ⟨failingRegistry (.foreign "RegistryError" "not found"), ["orb.yml", "foo/bar@0.0.1"]⟩
        World.start =
      some (some (.foreign "RegistryError" "not found"), ⟨[.OrbID "foo" "bar"], []⟩) := by rfl
  refine ⟨h, ?_⟩
  rintro ⟨context, w, hw⟩
  rw [h] at hw
  simp at hw

/-- C10, amended: when the registry call fails with `e`, the list, the list by
namespace, the source and the info commands return `e` wrapped in a message of
the operation (with the namespace or the reference, where there is one); the
create, publish, increment and promote commands return `e` as the registry
client made it. In each case the failed call is the last of the trace. -/
theorem registry_error_propagation (refs : ReferenceParser) (registry : api.Options)
    (flags : Flags) (MarshalIndent : api.OrbsForListing → Except GoError String)
    (path ref segment ns orb version : String) (e : GoError) :
    (registry.ListOrbs flags.orbListUncertified = .error e →
      listOrbs flags MarshalIndent ⟨registry, []⟩ World.start =
        some (some (.wrapf e "Failed to list orbs"),
          ⟨[.ListOrbs flags.orbListUncertified], []⟩)) ∧
    (registry.ListNamespaceOrbs ns = .error e →
      listOrbs flags MarshalIndent ⟨registry, [ns]⟩ World.start =
        some (some (.wrapf e ("Failed to list orbs in namespace `" ++ ns ++ "`")),
          ⟨[.ListNamespaceOrbs ns], []⟩)) ∧
    (registry.OrbSource ref = .error e →
      showSource ⟨registry, [ref]⟩ World.start =
        some (some (.wrapf e ("Failed to get source for '" ++ ref ++ "'")),
          ⟨[.OrbSource ref], []⟩)) ∧
    (registry.OrbInfo ref = .error e →
      orbInfo ⟨registry, [ref]⟩ World.start =
        some (some (.wrapf e ("Failed to get info for '" ++ ref ++ "'")),
          ⟨[.OrbInfo ref], []⟩)) ∧
    (refs.SplitIntoOrbAndNamespace ref = .ok (ns, orb) → registry.CreateOrb ns orb = .error e →
      createOrb refs ⟨registry, [ref]⟩ World.start =
        some (some e, ⟨[.CreateOrb ns orb], []⟩)) ∧
    (refs.SplitIntoOrbNamespaceAndVersion ref = .ok (ns, orb, version) →
      registry.OrbID ns orb = .error e →
      publishOrb refs ⟨registry, [path, ref]⟩ World.start =
        some (some e, ⟨[.OrbID ns orb], []⟩)) ∧
    (∀ id, refs.SplitIntoOrbNamespaceAndVersion ref = .ok (ns, orb, version) →
      registry.OrbID ns orb = .ok id →
      registry.OrbPublishByID path id.Orb.ID version = .error e →
      publishOrb refs ⟨registry, [path, ref]⟩ World.start =
        some (some e, ⟨[.OrbID ns orb, .OrbPublishByID path id.Orb.ID version], []⟩)) ∧
    (segment = "major" ∨ segment = "minor" ∨ segment = "patch" →
      refs.SplitIntoOrbAndNamespace ref = .ok (ns, orb) →
      registry.OrbIncrementVersion path ns orb segment = .error e →
      incrementOrb refs ⟨registry, [path, ref, segment]⟩ World.start =
        some (some e, ⟨[.OrbIncrementVersion path ns orb segment], []⟩)) ∧
    (segment = "major" ∨ segment = "minor" ∨ segment = "patch" →
      refs.SplitIntoOrbNamespaceAndVersion ref = .ok (ns, orb, version) →
      references.IsDevVersion version = true →
      registry.OrbPromote ns orb version segment = .error e →
      promoteOrb refs ⟨registry, [ref, segment]⟩ World.start =
        some (some e, ⟨[.OrbPromote ns orb version segment], []⟩)) := by
  refine ⟨?_, ?_, ?_, ?_, ?_, ?_, ?_, ?_, ?_⟩
  · intro h
    simp [listOrbs, h, World.start]
  · intro h
    simp [listOrbs, listNamespaceOrbs, h, World.start]
  · intro h
    simp [showSource, h, World.start]
  · intro h
    simp [orbInfo, h, World.start]
  · intro hp h
    simp [createOrb, hp, h, World.start]
  · intro hp h
    simp [publishOrb, hp, h, World.start]
  · intro id hp hid h
    simp [publishOrb, hp, hid, h, World.start]
  · intro hseg hp h
    simp [incrementOrb, validateSegmentArg_of_valid segment hseg, hp, h, World.start]
  · intro hseg hp hdev h
    simp [promoteOrb, validateSegmentArg_of_valid segment hseg, hp, hdev, h, World.start]

/-- C10, amended, against a registry that fails every call with `not found`:
`orb list circleci` wraps the error, `orb publish increment` does not. -/
theorem registry_error_propagation_witness :
    listOrbs ⟨false, false, false⟩ (fun _ => .ok "")
        ⟨failingRegistry (.foreign "RegistryError" "not found"), ["circleci"]⟩ World.start =
      some (some (.wrapf (.foreign "RegistryError" "not found")
        ("Failed to list orbs in namespace `" ++ "circleci" ++ "`")),
        ⟨[.ListNamespaceOrbs "circleci"], []⟩) ∧
    incrementOrb references.parser
        ⟨failingRegistry (.foreign "RegistryError" "not found"),
          ["foo/orb.yml", "foo/bar", "minor"]⟩ World.start =
      some (some (.foreign "RegistryError" "not found"),
        ⟨[.OrbIncrementVersion "foo/orb.yml" "foo" "bar" "minor"], []⟩) :=
  have h := registry_error_propagation references.parser
    (failingRegistry (.foreign "RegistryError" "not found")) ⟨false, false, false⟩
    (fun _ => .ok "") "foo/orb.yml" "foo/bar" "minor" "foo" "bar" "dev:x"
    (.foreign "RegistryError" "not found")
  ⟨(registry_error_propagation references.parser
      (failingRegistry (.foreign "RegistryError" "not found")) ⟨false, false, false⟩
      (fun _ => .ok "") "foo/orb.yml" "foo/bar" "minor" "circleci" "bar" "dev:x"
      (.foreign "RegistryError" "not found")).2.1 rfl,
   h.2.2.2.2.2.2.2.1 (by decide) (by rfl) rfl⟩

end cmd
